import Mathlib

/-!
Shallow embedding of the financoor core, taken from the repository's source:

* `TaxVerifier` (Solidity, `contracts/src/TaxVerifier.sol`): on-chain
  verification registry.  Addresses and `bytes32`/`uint256` words are
  modelled as `Nat`; calldata `bytes` as `List Nat` (each entry a byte);
  the storage mapping as an association list with zero-initialised
  default; a reverting call leaves the pre-state untouched (EVM
  atomicity).
* `MockSP1Verifier` (Solidity): the always-accepting demo verifier.
* `generateProofWithPolling` / `importSession` (TypeScript,
  `apps/web/src/lib/api.ts`): the client polling loop and session import.
* The tax computation engine and the proof-job registry live in a backend
  that is not part of the sources here; those parts are modelled from the
  spec and are marked as such.
-/

namespace TaxVerifier

/-- A stored verified tax record (struct `TaxRecord` in `TaxVerifier.sol`). -/
structure TaxRecord where
  totalTaxPaisa : Nat
  userType : Nat
  used44ada : Bool
  verifiedAt : Nat
  verifiedBy : Nat
deriving DecidableEq, Repr

/-- Solidity mapping default: the all-zero record. -/
def TaxRecord.zero : TaxRecord :=
  { totalTaxPaisa := 0, userType := 0, used44ada := false, verifiedAt := 0, verifiedBy := 0 }

/-- The `TaxProofVerified` event of `TaxVerifier.sol`. -/
structure TaxEvent where
  ledgerCommitment : Nat
  totalTaxPaisa : Nat
  userType : Nat
  used44ada : Bool
  verifiedBy : Nat
deriving DecidableEq, Repr

/-- Contract storage: the two immutables set in the constructor and the
`taxRecords` mapping (association list, most recent write first). -/
structure State where
  verifier : Nat
  taxZkVkey : Nat
  taxRecords : List (Nat × TaxRecord)
deriving DecidableEq, Repr

/-- The constructor `TaxVerifier(address _verifier, bytes32 _taxZkVkey)`. -/
def mkState (v k : Nat) : State :=
  { verifier := v, taxZkVkey := k, taxRecords := [] }

/-- Mapping read `taxRecords[c]`: first write wins, zero default. -/
def lookupRecord (m : List (Nat × TaxRecord)) (c : Nat) : TaxRecord :=
  match m with
  | [] => TaxRecord.zero
  | (c', r) :: rest => if c' = c then r else lookupRecord rest c

/-- Big-endian 32-byte word read at offset `off` of the byte list. -/
def word32 (bs : List Nat) (off : Nat) : Nat :=
  ((bs.drop off).take 32).foldl (fun acc b => acc * 256 + b) 0

/-- The call `abi.decode(publicValues, (bytes32, uint256, uint8, bool))`.
Solidity's decoder reverts when the data is shorter than the four head
words, when the `uint8` word has dirty high bits (value at least 256), or
when the `bool` word is neither 0 nor 1; it performs no further range
check on the `uint8`.  Trailing bytes beyond the 128-byte head are
tolerated. -/
def abiDecodePublicValues (bs : List Nat) :
    Option (Nat × Nat × Nat × Bool) :=
  if 128 ≤ bs.length then
    if word32 bs 64 < 256 ∧ word32 bs 96 ≤ 1 then
      some (word32 bs 0, word32 bs 32, word32 bs 64, word32 bs 96 = 1)
    else none
  else none

/-- Transaction environment: `block.timestamp` and `msg.sender`. -/
structure Env where
  blockTimestamp : Nat
  msgSender : Nat
deriving DecidableEq, Repr

/-- The external `ISP1Verifier.verifyProof(vkey, publicValues, proofBytes)`
call, abstracted as a predicate: `true` means the call returns normally,
`false` means it reverts. -/
def ExtVerifier := Nat → List Nat → List Nat → Bool

/-- The entry point `verifyTaxProof(proofBytes, publicValues)`: first the external
verifier call on `taxZkVkey`, then the abi decode, then the storage write
and the event.  `none` is a revert. -/
def verifyTaxProof (ext : ExtVerifier) (s : State) (env : Env)
    (proofBytes publicValues : List Nat) :
    Option (State × TaxEvent) :=
  if ext s.taxZkVkey publicValues proofBytes then
    match abiDecodePublicValues publicValues with
    | some (c, tax, ut, fl) =>
        some
          ({ s with
              taxRecords :=
                (c, { totalTaxPaisa := tax, userType := ut, used44ada := fl,
                      verifiedAt := env.blockTimestamp,
                      verifiedBy := env.msgSender }) :: s.taxRecords },
            { ledgerCommitment := c, totalTaxPaisa := tax, userType := ut,
              used44ada := fl, verifiedBy := env.msgSender })
    | none => none
  else none

/-- Transaction-level semantics: a revert rolls the whole call back, so
the state and the emitted-event log are unchanged; a success installs the
new state and appends the event. -/
def execVerifyTaxProof (ext : ExtVerifier) (s : State) (env : Env)
    (proofBytes publicValues : List Nat) (log : List TaxEvent) :
    State × List TaxEvent :=
  match verifyTaxProof ext s env proofBytes publicValues with
  | some (s', e) => (s', log ++ [e])
  | none => (s, log)

/-- View `isVerified(bytes32)`: true once the stored record's timestamp is
positive. -/
def isVerified (s : State) (c : Nat) : Bool :=
  (lookupRecord s.taxRecords c).verifiedAt > 0

/-- View `getTaxRecord(bytes32)`. -/
def getTaxRecord (s : State) (c : Nat) : TaxRecord :=
  lookupRecord s.taxRecords c

/-- The public-immutable getter `taxZkVkey()`. -/
def taxZkVkeyAccessor (s : State) : Nat := s.taxZkVkey

end TaxVerifier

namespace MockSP1Verifier

/-- The mock `MockSP1Verifier.verifyProof` ignores all three arguments and returns
normally: it never reverts. -/
def verifyProof (_vkey : Nat) (_publicValues _proofBytes : List Nat) : Bool :=
  true

end MockSP1Verifier

namespace Deploy

/-- The script `DeployScript.run` wires `TaxVerifier` to the freshly deployed
`MockSP1Verifier` with `bytes32(0)` as the verification key. -/
def mockVkey : Nat := 0

/-- The demo `TaxVerifier` state right after deployment, given the mock
verifier's address. -/
def demoTaxVerifier (mockVerifierAddr : Nat) : TaxVerifier.State :=
  TaxVerifier.mkState mockVerifierAddr mockVkey

end Deploy

namespace Engine

/-- User types of a `TaxRequest`. -/
inductive UserType
  | individual
  | huf
  | corporate
deriving DecidableEq, Repr

/-- Ledger-row categories. -/
inductive Category
  | income
  | gains
  | losses
  | fees
  | internal
  | unknown
deriving DecidableEq, Repr

/-- An exact nonnegative decimal `num / 10 ^ exp`: the well-formed decimal
strings carrying amounts, prices and the USD-INR rate.  Negative or
malformed amount strings are rejected by the engine (`InvalidAmount`)
before any arithmetic, so the arithmetic model's inputs are the
well-formed nonnegative decimals. -/
structure Dec where
  num : Nat
  exp : Nat
deriving DecidableEq, Repr

/-- Exact decimal multiplication. -/
def Dec.mul (a b : Dec) : Dec := { num := a.num * b.num, exp := a.exp + b.exp }

/-- The decimal's value in INR times 100, rounded half-up to integer
paisa: `round(num / 10 ^ exp × 100)`. -/
def Dec.toPaisa (d : Dec) : Nat :=
  (200 * d.num + 10 ^ d.exp) / (2 * 10 ^ d.exp)

/-- Computes `round(x × num / den)` (half-up) on integer paisa, for the configured
flat rates. -/
def mulRatRound (x num den : Nat) : Nat :=
  (2 * x * num + den) / (2 * den)

/-- Modelled from the spec: the tax computation engine is a backend
program whose source is not in this repository; a ledger row as the
engine sees it. -/
structure Row where
  asset : String
  amount : Dec
  category : Category
deriving DecidableEq, Repr

/-- Modelled from the spec: a tax request as submitted to the engine. -/
structure Request where
  userType : UserType
  ledger : List Row
  prices : List (String × Dec)
  usdInrRate : Dec
  use44ada : Bool
deriving DecidableEq, Repr

/-- Modelled from the spec: the engine's configuration — the slab-rate
schedule, the rebate threshold, the flat VDA and cess rates and the VDA
asset classification are external configuration tables, so the model is
parametric in them.  The slab schedule maps taxable paisa to slab-tax
paisa; the rates are fractions `num / den`. -/
structure Config where
  slab : Nat → Nat
  rebateThreshold : Nat
  vdaRateNum : Nat
  vdaRateDen : Nat
  cessNum : Nat
  cessDen : Nat
  isVda : String → Bool

/-- Modelled from the spec: the engine's synchronous validation errors. -/
inductive EngineError
  | missingPrice (asset : String)
deriving DecidableEq, Repr

/-- Modelled from the spec: the tax breakdown, all figures in integer
paisa. -/
structure Breakdown where
  professionalIncome : Nat
  taxableProfessional : Nat
  vdaGains : Nat
  vdaLosses : Nat
  slabTax : Nat
  rebate : Nat
  vdaTax : Nat
  cess : Nat
  total : Nat
deriving DecidableEq, Repr

/-- Price lookup over the request's price entries. -/
def lookupPrice (prices : List (String × Dec)) (asset : String) : Option Dec :=
  match prices with
  | [] => none
  | (a, p) :: rest => if a = asset then some p else lookupPrice rest asset

/-- Modelled from the spec, step 1: a row's INR value in integer paisa,
`amount × usd_price × usd_inr_rate` rounded to the nearest paisa; fails
when the asset has no price entry. -/
def rowPaisa (prices : List (String × Dec)) (rate : Dec) (r : Row) :
    Except EngineError Nat :=
  match lookupPrice prices r.asset with
  | none => .error (.missingPrice r.asset)
  | some p => .ok ((r.amount.mul p).mul rate).toPaisa

/-- Sum of the converted paisa of the rows selected by `keep`; the whole
sum fails on the first missing price anywhere in the ledger. -/
def sumRows (prices : List (String × Dec)) (rate : Dec)
    (keep : Row → Bool) (rows : List Row) : Except EngineError Nat :=
  match rows with
  | [] => .ok 0
  | r :: rest =>
      match rowPaisa prices rate r with
      | .error e => .error e
      | .ok v =>
          match sumRows prices rate keep rest with
          | .error e => .error e
          | .ok acc => .ok ((if keep r then v else 0) + acc)

/-- Modelled from the spec: `compute(request) -> TaxBreakdown`.  Income
rows make professional income; an individual with the presumptive flag is
taxed on half of it, rounded to the nearest paisa; `gains` and `losses`
rows on VDA-classified assets make the two VDA aggregates (losses never
offset anything); slab tax comes from the configured schedule; the rebate
cancels the slab tax for individuals at or below the threshold; cess is
the configured fraction of (slab − rebate + VDA tax); total =
slab − rebate + VDA tax + cess.  `unknown`, `internal` and `fees` rows
enter no aggregate. -/
def compute (cfg : Config) (req : Request) : Except EngineError Breakdown :=
  match sumRows req.prices req.usdInrRate (fun r => r.category = .income) req.ledger with
  | .error e => .error e
  | .ok professionalIncome =>
    match sumRows req.prices req.usdInrRate
        (fun r => r.category = .gains && cfg.isVda r.asset) req.ledger with
    | .error e => .error e
    | .ok vdaGains =>
      match sumRows req.prices req.usdInrRate
          (fun r => r.category = .losses && cfg.isVda r.asset) req.ledger with
      | .error e => .error e
      | .ok vdaLosses =>
        let taxableProfessional :=
          if req.userType = .individual ∧ req.use44ada then
            mulRatRound professionalIncome 1 2
          else professionalIncome
        let slabTax := cfg.slab taxableProfessional
        let rebate :=
          if req.userType = .individual ∧ taxableProfessional ≤ cfg.rebateThreshold then
            slabTax
          else 0
        let vdaTax := mulRatRound vdaGains cfg.vdaRateNum cfg.vdaRateDen
        let cess := mulRatRound (slabTax - rebate + vdaTax) cfg.cessNum cfg.cessDen
        .ok { professionalIncome := professionalIncome,
              taxableProfessional := taxableProfessional,
              vdaGains := vdaGains,
              vdaLosses := vdaLosses,
              slabTax := slabTax,
              rebate := rebate,
              vdaTax := vdaTax,
              cess := cess,
              total := slabTax - rebate + vdaTax + cess }

end Engine

namespace ProofJob

/-- The proof result carried by a finished job (`ProofResult` in
`apps/web/src/lib/api.ts`), kept abstract: the claims only move it
around. -/
structure ProofResult where
  ledgerCommitment : String
  totalTaxPaisa : String
  proof : String
  publicValues : String
  vkHash : String
deriving DecidableEq, Repr

/-- A job's status (`ProofJobStatus` in `apps/web/src/lib/api.ts`):
`pending`, `done` with a result, or `error` with a message. -/
inductive JobStatus
  | pending
  | done (r : ProofResult)
  | error (msg : String)
deriving DecidableEq, Repr

/-- Statuses `done` and `error` are the terminal ones. -/
def JobStatus.isTerminal : JobStatus → Bool
  | .pending => false
  | .done _ => true
  | .error _ => true

/-- Modelled from the spec: the proof-job registry is a backend whose
source is not in this repository; its allowed status transitions are
"exactly one transition out of `pending`, none afterwards": a step either
starts from `pending` or changes nothing. -/
def JobStep (a b : JobStatus) : Prop :=
  a = .pending ∨ b = a

/-- The status tag of a wire response (`status` field of
`ProofStatusResponse`). -/
inductive StatusTag
  | pending
  | done
  | error
deriving DecidableEq, Repr

/-- Wire type `ProofStatusResponse` of `apps/web/src/lib/api.ts`: the status tag
with optional `result` and `error` fields. -/
structure StatusResponse where
  statusTag : StatusTag
  result : Option ProofResult
  errMsg : Option String
deriving DecidableEq, Repr

/-- How the backend renders a job status on the wire (modelled from the
spec and the client's `ProofJobStatus` type). -/
def renderStatus : JobStatus → StatusResponse
  | .pending => { statusTag := .pending, result := none, errMsg := none }
  | .done r => { statusTag := .done, result := some r, errMsg := none }
  | .error e => { statusTag := .error, result := none, errMsg := some e }

/-- Outcome of the polling loop: return a result, throw an error message,
or run out of the given poll responses (the real loop would poll on). -/
inductive PollOutcome
  | ok (r : ProofResult)
  | failed (msg : String)
  | exhausted
deriving DecidableEq, Repr

/-- The loop body of `generateProofWithPolling` over the sequence of
status responses the polls receive, following the source order: return
the result when the status is `done` and a result is present; throw
`error || "Proof generation failed"` when the status is `error`;
otherwise poll again. -/
def pollLoop : List StatusResponse → PollOutcome
  | [] => .exhausted
  | s :: rest =>
      match s.statusTag, s.result with
      | .done, some r => .ok r
      | .done, none => pollLoop rest
      | .error, _ => .failed (s.errMsg.getD "Proof generation failed")
      | .pending, _ => pollLoop rest

end ProofJob

namespace SessionImport

/-- A parsed JavaScript JSON value.  Numbers are modelled as integers,
which is enough for the session claims: they only test
`typeof x === "number"` and `Array.isArray`. -/
inductive JSValue
  | null
  | bool (b : Bool)
  | num (n : Int)
  | str (s : String)
  | arr (xs : List JSValue)
  | obj (fields : List (String × JSValue))

/-- Property access `v.key`: a lookup on an object, `undefined` (`none`)
on anything else.  (On `null`/`undefined` the real access throws, but
`importSession` catches that and returns `false`, which coincides with
the `none` path here.) -/
def getField : JSValue → String → Option JSValue
  | .obj fields, key => lookupField fields key
  | _, _ => none
where
  lookupField : List (String × JSValue) → String → Option JSValue
    | [], _ => none
    | (k, v) :: rest, key => if k = key then some v else lookupField rest key

/-- Object spread-and-override `{...v, key: val}`. -/
def setField (v : JSValue) (key : String) (val : JSValue) : JSValue :=
  match v with
  | .obj fields => .obj (fields.filter (fun f => f.1 ≠ key) ++ [(key, val)])
  | other => other

/-- The test `typeof v === "number"`. -/
def isNumber : JSValue → Bool
  | .num _ => true
  | _ => false

/-- The test `Array.isArray(v)`. -/
def isArray : Option JSValue → Bool
  | some (.arr _) => true
  | _ => false

/-- The session state visible to `importSession`: the session object
itself (the TypeScript `SessionState`). -/
structure SessionCtx where
  session : JSValue

/-- Function `importSession(json)` of `apps/web/src/lib/api.ts`, over the result
of `JSON.parse` (`none` when parsing threw): checks that `version` is a
number and that `wallets` and `walletGroups` are arrays, then replaces
the whole session with the parsed value with `updatedAt` refreshed to
`now`; on any failure it returns `false` and leaves the session alone. -/
def importSession : Option JSValue → Int → SessionCtx → Bool × SessionCtx
  | none, _, ctx => (false, ctx)
  | some v, now, ctx =>
      if ¬ (getField v "version").any isNumber then (false, ctx)
      else if ¬ (isArray (getField v "wallets") ∧ isArray (getField v "walletGroups")) then
        (false, ctx)
      else (true, { session := setField v "updatedAt" (.num now) })

end SessionImport

/-! Concrete inputs used by witnesses and counterexamples. -/

/-- An external verifier that accepts everything (the semantics of
`MockSP1Verifier.verifyProof` as seen by `TaxVerifier`). -/
def acceptAll : TaxVerifier.ExtVerifier := fun _ _ _ => true

/-- An external verifier that rejects everything. -/
def rejectAll : TaxVerifier.ExtVerifier := fun _ _ _ => false

/-- 128 zero bytes: a well-formed public-values encoding of
`(0, 0, 0, false)`. -/
def pvZero : List Nat := List.replicate 128 0

/-- A well-formed 128-byte public-values encoding whose user-type word is
3 — outside `{0, 1, 2}` but a clean `uint8`. -/
def pvUserType3 : List Nat :=
  List.replicate 95 0 ++ [3] ++ List.replicate 32 0

/-! Helper lemmas about the `TaxVerifier` embedding. -/

namespace TaxVerifier

lemma lookupRecord_cons_self (c : Nat) (r : TaxRecord) (m : List (Nat × TaxRecord)) :
    lookupRecord ((c, r) :: m) c = r := by
  simp [lookupRecord]

/-- Anatomy of a successful `verifyTaxProof` call. -/
lemma verifyTaxProof_eq_some
    (ext : ExtVerifier) (s : State) (env : Env)
    (pf pv : List Nat) (s' : State) (e : TaxEvent)
    (hrun : verifyTaxProof ext s env pf pv = some (s', e)) :
    ext s.taxZkVkey pv pf = true ∧
    ∃ c tax ut fl, abiDecodePublicValues pv = some (c, tax, ut, fl) ∧
      s' = { s with taxRecords :=
              (c, { totalTaxPaisa := tax, userType := ut, used44ada := fl,
                    verifiedAt := env.blockTimestamp,
                    verifiedBy := env.msgSender }) :: s.taxRecords } ∧
      e = { ledgerCommitment := c, totalTaxPaisa := tax, userType := ut,
            used44ada := fl, verifiedBy := env.msgSender } := by
  unfold verifyTaxProof at hrun
  cases hx : ext s.taxZkVkey pv pf with
  | false => rw [hx] at hrun; simp at hrun
  | true =>
      rw [hx] at hrun
      simp only [if_true] at hrun
      cases hdec : abiDecodePublicValues pv with
      | none => rw [hdec] at hrun; simp at hrun
      | some q =>
          obtain ⟨c, tax, ut, fl⟩ := q
          rw [hdec] at hrun
          simp only [Option.some.injEq, Prod.mk.injEq] at hrun
          exact ⟨rfl, c, tax, ut, fl, rfl, hrun.1.symm, hrun.2.symm⟩

end TaxVerifier

/-- C1: when `verifyTaxProof` succeeds and the public values decode to
`(c, tax, ut, fl)`, the record stored at key `c` afterwards is exactly
`{tax, ut, fl, current block time, caller}`, and the `TaxProofVerified`
event appended to the log carries those same fields and the caller. -/
theorem verifyTaxProof_success_stores_record_and_emits
    (ext : TaxVerifier.ExtVerifier) (s : TaxVerifier.State) (env : TaxVerifier.Env)
    (pf pv : List Nat) (s' : TaxVerifier.State) (e : TaxVerifier.TaxEvent)
    (c tax ut : Nat) (fl : Bool)
    (hdec : TaxVerifier.abiDecodePublicValues pv = some (c, tax, ut, fl))
    (hrun : TaxVerifier.verifyTaxProof ext s env pf pv = some (s', e)) :
    TaxVerifier.getTaxRecord s' c =
      { totalTaxPaisa := tax, userType := ut, used44ada := fl,
        verifiedAt := env.blockTimestamp, verifiedBy := env.msgSender } ∧
    e = { ledgerCommitment := c, totalTaxPaisa := tax, userType := ut,
          used44ada := fl, verifiedBy := env.msgSender } ∧
    ∀ log, TaxVerifier.execVerifyTaxProof ext s env pf pv log = (s', log ++ [e]) := by
  obtain ⟨hext, c', tax', ut', fl', hdec', hs', he⟩ :=
    TaxVerifier.verifyTaxProof_eq_some ext s env pf pv s' e hrun
  rw [hdec] at hdec'
  obtain ⟨rfl, rfl, rfl, rfl⟩ :
      c' = c ∧ tax' = tax ∧ ut' = ut ∧ fl' = fl := by
    simpa using hdec'.symm
  refine ⟨?_, he, ?_⟩
  · rw [hs']
    exact TaxVerifier.lookupRecord_cons_self _ _ _
  · intro log
    simp [TaxVerifier.execVerifyTaxProof, hrun]

set_option maxRecDepth 10000 in
/-- Witness for C1 at a concrete call: accepting verifier, all-zero
public values, block time 100, caller 7. -/
theorem verifyTaxProof_success_stores_record_and_emits_witness :
    TaxVerifier.getTaxRecord
      ({ verifier := 1, taxZkVkey := 2,
         taxRecords := [(0, { totalTaxPaisa := 0, userType := 0, used44ada := false,
                              verifiedAt := 100, verifiedBy := 7 })] } :
        TaxVerifier.State) 0 =
      { totalTaxPaisa := 0, userType := 0, used44ada := false,
        verifiedAt := 100, verifiedBy := 7 } := by
  have h :=
    verifyTaxProof_success_stores_record_and_emits acceptAll
      (TaxVerifier.mkState 1 2) { blockTimestamp := 100, msgSender := 7 }
      [] pvZero
      ({ verifier := 1, taxZkVkey := 2,
         taxRecords := [(0, { totalTaxPaisa := 0, userType := 0, used44ada := false,
                              verifiedAt := 100, verifiedBy := 7 })] })
      ({ ledgerCommitment := 0, totalTaxPaisa := 0, userType := 0,
         used44ada := false, verifiedBy := 7 })
      0 0 0 false (by decide) (by decide)
  exact h.1

/-- C2: a `verifyTaxProof` call reverts when the public values do not
decode to the fixed tuple and when the external verifier rejects, and a
reverting call mutates nothing: the state (hence the commitment-to-record
mapping) and the event log come out unchanged. -/
theorem verifyTaxProof_revert_is_atomic
    (ext : TaxVerifier.ExtVerifier) (s : TaxVerifier.State) (env : TaxVerifier.Env)
    (pf pv : List Nat) (log : List TaxVerifier.TaxEvent) :
    (TaxVerifier.abiDecodePublicValues pv = none →
      TaxVerifier.verifyTaxProof ext s env pf pv = none) ∧
    (ext s.taxZkVkey pv pf = false →
      TaxVerifier.verifyTaxProof ext s env pf pv = none) ∧
    (TaxVerifier.verifyTaxProof ext s env pf pv = none →
      TaxVerifier.execVerifyTaxProof ext s env pf pv log = (s, log)) := by
  refine ⟨?_, ?_, ?_⟩
  · intro hdec
    unfold TaxVerifier.verifyTaxProof
    rw [hdec]
    cases ext s.taxZkVkey pv pf <;> simp
  · intro hext
    unfold TaxVerifier.verifyTaxProof
    rw [hext]
    simp
  · intro hnone
    simp [TaxVerifier.execVerifyTaxProof, hnone]

set_option maxRecDepth 10000 in
/-- Witness for C2: a rejecting verifier reverts and leaves the state and
log unchanged; a 10-byte public-values blob fails to decode. -/
theorem verifyTaxProof_revert_is_atomic_witness :
    TaxVerifier.verifyTaxProof rejectAll (TaxVerifier.mkState 1 2)
        { blockTimestamp := 100, msgSender := 7 } [] pvZero = none ∧
    TaxVerifier.execVerifyTaxProof rejectAll (TaxVerifier.mkState 1 2)
        { blockTimestamp := 100, msgSender := 7 } [] pvZero [] =
      (TaxVerifier.mkState 1 2, []) ∧
    TaxVerifier.verifyTaxProof acceptAll (TaxVerifier.mkState 1 2)
        { blockTimestamp := 100, msgSender := 7 } [] (List.replicate 10 0) = none := by
  have h := verifyTaxProof_revert_is_atomic rejectAll (TaxVerifier.mkState 1 2)
    { blockTimestamp := 100, msgSender := 7 } [] pvZero []
  have h2 := verifyTaxProof_revert_is_atomic acceptAll (TaxVerifier.mkState 1 2)
    { blockTimestamp := 100, msgSender := 7 } [] (List.replicate 10 0) []
  have hrej : TaxVerifier.verifyTaxProof rejectAll (TaxVerifier.mkState 1 2)
      { blockTimestamp := 100, msgSender := 7 } [] pvZero = none :=
    h.2.1 rfl
  exact ⟨hrej, h.2.2 hrej, h2.1 (by decide)⟩

/-- C4: if a commitment `c` already holds a stored record, a later
successful `verifyTaxProof` call by any caller whose public values decode
to `c` replaces that record with the new values, timestamp and caller
address — no condition relates the new caller to the previous
`verifiedBy`. -/
theorem verifyTaxProof_overwrites_existing_record
    (ext : TaxVerifier.ExtVerifier) (s : TaxVerifier.State) (env : TaxVerifier.Env)
    (pf pv : List Nat) (s' : TaxVerifier.State) (e : TaxVerifier.TaxEvent)
    (c tax ut : Nat) (fl : Bool)
    (hprior : (TaxVerifier.getTaxRecord s c).verifiedAt > 0)
    (hdec : TaxVerifier.abiDecodePublicValues pv = some (c, tax, ut, fl))
    (hrun : TaxVerifier.verifyTaxProof ext s env pf pv = some (s', e)) :
    TaxVerifier.getTaxRecord s' c =
      { totalTaxPaisa := tax, userType := ut, used44ada := fl,
        verifiedAt := env.blockTimestamp, verifiedBy := env.msgSender } := by
  obtain ⟨hext, c', tax', ut', fl', hdec', hs', he⟩ :=
    TaxVerifier.verifyTaxProof_eq_some ext s env pf pv s' e hrun
  rw [hdec] at hdec'
  obtain ⟨rfl, rfl, rfl, rfl⟩ :
      c' = c ∧ tax' = tax ∧ ut' = ut ∧ fl' = fl := by
    simpa using hdec'.symm
  rw [hs']
  exact TaxVerifier.lookupRecord_cons_self _ _ _

set_option maxRecDepth 10000 in
/-- Witness for C4: commitment 0 already recorded by address 3 at time
50; caller 7 re-verifies at time 100 and the stored record now names
caller 7. -/
theorem verifyTaxProof_overwrites_existing_record_witness :
    TaxVerifier.getTaxRecord
      ({ verifier := 1, taxZkVkey := 2,
         taxRecords :=
           [(0, { totalTaxPaisa := 0, userType := 0, used44ada := false,
                  verifiedAt := 100, verifiedBy := 7 }),
            (0, { totalTaxPaisa := 5, userType := 1, used44ada := true,
                  verifiedAt := 50, verifiedBy := 3 })] } :
        TaxVerifier.State) 0 =
      { totalTaxPaisa := 0, userType := 0, used44ada := false,
        verifiedAt := 100, verifiedBy := 7 } :=
  verifyTaxProof_overwrites_existing_record acceptAll
    ({ verifier := 1, taxZkVkey := 2,
       taxRecords :=
         [(0, { totalTaxPaisa := 5, userType := 1, used44ada := true,
                verifiedAt := 50, verifiedBy := 3 })] })
    { blockTimestamp := 100, msgSender := 7 } [] pvZero
    ({ verifier := 1, taxZkVkey := 2,
       taxRecords :=
         [(0, { totalTaxPaisa := 0, userType := 0, used44ada := false,
                verifiedAt := 100, verifiedBy := 7 }),
          (0, { totalTaxPaisa := 5, userType := 1, used44ada := true,
                verifiedAt := 50, verifiedBy := 3 })] })
    ({ ledgerCommitment := 0, totalTaxPaisa := 0, userType := 0,
       used44ada := false, verifiedBy := 7 })
    0 0 0 false (by decide) (by decide) (by decide)

namespace TaxVerifier

/-- A state-affecting call on the deployed contract.  `verifyTaxProof` is
the only mutating entry point; the view functions (`isVerified`,
`getTaxRecord`, the immutable getters) read the state without touching
it. -/
inductive Op
  | verify (env : Env) (proofBytes publicValues : List Nat)

/-- Transaction semantics of one call (reverts roll back). -/
def applyOp (ext : ExtVerifier) (s : State) : Op → State
  | .verify env pf pv => (execVerifyTaxProof ext s env pf pv []).1

/-- A whole post-construction history of calls. -/
def applyOps (ext : ExtVerifier) (s : State) (ops : List Op) : State :=
  ops.foldl (applyOp ext) s

lemma applyOp_verifier (ext : ExtVerifier) (s : State) (op : Op) :
    (applyOp ext s op).verifier = s.verifier := by
  obtain ⟨env, pf, pv⟩ := op
  cases hrun : verifyTaxProof ext s env pf pv with
  | none => simp [applyOp, execVerifyTaxProof, hrun]
  | some p =>
      obtain ⟨s', e⟩ := p
      obtain ⟨-, c, tax, ut, fl, -, hs', -⟩ :=
        verifyTaxProof_eq_some ext s env pf pv s' e hrun
      simp [applyOp, execVerifyTaxProof, hrun, hs']

lemma applyOp_taxZkVkey (ext : ExtVerifier) (s : State) (op : Op) :
    (applyOp ext s op).taxZkVkey = s.taxZkVkey := by
  obtain ⟨env, pf, pv⟩ := op
  cases hrun : verifyTaxProof ext s env pf pv with
  | none => simp [applyOp, execVerifyTaxProof, hrun]
  | some p =>
      obtain ⟨s', e⟩ := p
      obtain ⟨-, c, tax, ut, fl, -, hs', -⟩ :=
        verifyTaxProof_eq_some ext s env pf pv s' e hrun
      simp [applyOp, execVerifyTaxProof, hrun, hs']

lemma applyOps_verifier (ext : ExtVerifier) (s : State) (ops : List Op) :
    (applyOps ext s ops).verifier = s.verifier := by
  induction ops generalizing s with
  | nil => rfl
  | cons op rest ih =>
      have hstep : applyOps ext s (op :: rest) = applyOps ext (applyOp ext s op) rest := rfl
      rw [hstep, ih (applyOp ext s op), applyOp_verifier]

lemma applyOps_taxZkVkey (ext : ExtVerifier) (s : State) (ops : List Op) :
    (applyOps ext s ops).taxZkVkey = s.taxZkVkey := by
  induction ops generalizing s with
  | nil => rfl
  | cons op rest ih =>
      have hstep : applyOps ext s (op :: rest) = applyOps ext (applyOp ext s op) rest := rfl
      rw [hstep, ih (applyOp ext s op), applyOp_taxZkVkey]

end TaxVerifier

/-- C5: after any history of calls on a contract constructed with
`(v, k)`, the stored verifier address is still `v` and the verification
key is still `k` (also through the read-only getter); moreover the
behaviour of `verifyTaxProof` depends on the external verifier only
through its verdicts at the single key `taxZkVkey` — two external
verifiers that agree there are indistinguishable. -/
theorem taxVerifier_immutables_fixed
    (ext : TaxVerifier.ExtVerifier) (v k : Nat) (ops : List TaxVerifier.Op) :
    (TaxVerifier.applyOps ext (TaxVerifier.mkState v k) ops).verifier = v ∧
    (TaxVerifier.applyOps ext (TaxVerifier.mkState v k) ops).taxZkVkey = k ∧
    TaxVerifier.taxZkVkeyAccessor (TaxVerifier.applyOps ext (TaxVerifier.mkState v k) ops) = k ∧
    (∀ ext₁ ext₂ : TaxVerifier.ExtVerifier, ∀ s : TaxVerifier.State,
      ∀ env : TaxVerifier.Env, ∀ pf pv : List Nat,
      (∀ pv' pf', ext₁ s.taxZkVkey pv' pf' = ext₂ s.taxZkVkey pv' pf') →
      TaxVerifier.verifyTaxProof ext₁ s env pf pv =
        TaxVerifier.verifyTaxProof ext₂ s env pf pv) := by
  refine ⟨TaxVerifier.applyOps_verifier ext _ ops,
    TaxVerifier.applyOps_taxZkVkey ext _ ops,
    TaxVerifier.applyOps_taxZkVkey ext _ ops, ?_⟩
  intro ext₁ ext₂ s env pf pv hagree
  unfold TaxVerifier.verifyTaxProof
  rw [hagree pv pf]

set_option maxRecDepth 10000 in
/-- Witness for C5: a two-call history on a contract built with
`(v, k) = (1, 2)` keeps both immutables, and two pointwise-agreeing
external verifiers give the same call result. -/
theorem taxVerifier_immutables_fixed_witness :
    (TaxVerifier.applyOps acceptAll (TaxVerifier.mkState 1 2)
        [TaxVerifier.Op.verify { blockTimestamp := 100, msgSender := 7 } [] pvZero,
         TaxVerifier.Op.verify { blockTimestamp := 200, msgSender := 8 } [] []]).verifier = 1 ∧
    TaxVerifier.taxZkVkeyAccessor
      (TaxVerifier.applyOps acceptAll (TaxVerifier.mkState 1 2)
        [TaxVerifier.Op.verify { blockTimestamp := 100, msgSender := 7 } [] pvZero,
         TaxVerifier.Op.verify { blockTimestamp := 200, msgSender := 8 } [] []]) = 2 ∧
    TaxVerifier.verifyTaxProof acceptAll (TaxVerifier.mkState 1 2)
        { blockTimestamp := 100, msgSender := 7 } [] pvZero =
      TaxVerifier.verifyTaxProof (fun _ _ _ => true) (TaxVerifier.mkState 1 2)
        { blockTimestamp := 100, msgSender := 7 } [] pvZero := by
  have h := taxVerifier_immutables_fixed acceptAll 1 2
    [TaxVerifier.Op.verify { blockTimestamp := 100, msgSender := 7 } [] pvZero,
     TaxVerifier.Op.verify { blockTimestamp := 200, msgSender := 8 } [] []]
  exact ⟨h.1, h.2.2.1,
    h.2.2.2 acceptAll (fun _ _ _ => true) (TaxVerifier.mkState 1 2)
      { blockTimestamp := 100, msgSender := 7 } [] pvZero (fun _ _ => rfl)⟩

namespace TaxVerifier

/-- The commitment a call would record, were it to succeed against a
contract whose verification key is `k`: `none` when the call reverts.
Whether a call succeeds depends only on the key, the bytes and the
external verifier, never on the stored records. -/
def opCommitment (ext : ExtVerifier) (k : Nat) : Op → Option Nat
  | .verify _ pf pv =>
      if ext k pv pf then
        match abiDecodePublicValues pv with
        | some (c, _, _, _) => some c
        | none => none
      else none

lemma lookupRecord_applyOp_of_ne (ext : ExtVerifier) (s : State) (op : Op) (c : Nat)
    (hop : opCommitment ext s.taxZkVkey op ≠ some c) :
    lookupRecord (applyOp ext s op).taxRecords c = lookupRecord s.taxRecords c := by
  obtain ⟨env, pf, pv⟩ := op
  cases hrun : verifyTaxProof ext s env pf pv with
  | none => simp [applyOp, execVerifyTaxProof, hrun]
  | some p =>
      obtain ⟨s', e⟩ := p
      obtain ⟨hext, c', tax, ut, fl, hdec, hs', -⟩ :=
        verifyTaxProof_eq_some ext s env pf pv s' e hrun
      have hne : c' ≠ c := by
        intro hcc
        apply hop
        simp [opCommitment, hext, hdec, hcc]
      simp [applyOp, execVerifyTaxProof, hrun, hs', lookupRecord, hne]

lemma lookupRecord_applyOps_of_ne (ext : ExtVerifier) (s : State) (ops : List Op) (c : Nat)
    (hops : ∀ op ∈ ops, opCommitment ext s.taxZkVkey op ≠ some c) :
    lookupRecord (applyOps ext s ops).taxRecords c = lookupRecord s.taxRecords c := by
  induction ops generalizing s with
  | nil => rfl
  | cons op rest ih =>
      have hstep : applyOps ext s (op :: rest) = applyOps ext (applyOp ext s op) rest := rfl
      rw [hstep]
      have hkeep : (applyOp ext s op).taxZkVkey = s.taxZkVkey := applyOp_taxZkVkey ext s op
      have hrest : ∀ op' ∈ rest, opCommitment ext (applyOp ext s op).taxZkVkey op' ≠ some c := by
        intro op' hmem
        rw [hkeep]
        exact hops op' (List.mem_cons_of_mem op hmem)
      rw [ih (applyOp ext s op) hrest,
        lookupRecord_applyOp_of_ne ext s op c (hops op (List.mem_cons_self op rest))]

end TaxVerifier

/-- C6: `isVerified` answers exactly "the stored record has a nonzero
timestamp": it is `false` after any history in which no successful call
recorded commitment `c`, it is `true` right after a successful call that
records `c` at a nonzero block time (with `getTaxRecord` returning the
stored record), and on every state it agrees with the nonzero-timestamp
test. -/
theorem isVerified_iff_nonzero_timestamp
    (ext : TaxVerifier.ExtVerifier) (v k c : Nat) (ops : List TaxVerifier.Op) :
    ((∀ op ∈ ops, TaxVerifier.opCommitment ext k op ≠ some c) →
      TaxVerifier.isVerified (TaxVerifier.applyOps ext (TaxVerifier.mkState v k) ops) c = false) ∧
    (∀ s s' : TaxVerifier.State, ∀ e : TaxVerifier.TaxEvent, ∀ env : TaxVerifier.Env,
      ∀ pf pv : List Nat, ∀ tax ut : Nat, ∀ fl : Bool,
      TaxVerifier.abiDecodePublicValues pv = some (c, tax, ut, fl) →
      TaxVerifier.verifyTaxProof ext s env pf pv = some (s', e) →
      0 < env.blockTimestamp →
      TaxVerifier.isVerified s' c = true ∧
      TaxVerifier.getTaxRecord s' c =
        { totalTaxPaisa := tax, userType := ut, used44ada := fl,
          verifiedAt := env.blockTimestamp, verifiedBy := env.msgSender }) ∧
    (∀ s : TaxVerifier.State,
      TaxVerifier.isVerified s c = ((TaxVerifier.getTaxRecord s c).verifiedAt != 0)) := by
  refine ⟨?_, ?_, ?_⟩
  · intro hops
    have hk : (TaxVerifier.mkState v k).taxZkVkey = k := rfl
    have h := TaxVerifier.lookupRecord_applyOps_of_ne ext (TaxVerifier.mkState v k) ops c
      (by rw [hk]; exact hops)
    simp only [TaxVerifier.isVerified]
    rw [h]
    simp [TaxVerifier.mkState, TaxVerifier.lookupRecord, TaxVerifier.TaxRecord.zero]
  · intro s s' e env pf pv tax ut fl hdec hrun htime
    obtain ⟨hext, c', tax', ut', fl', hdec', hs', he⟩ :=
      TaxVerifier.verifyTaxProof_eq_some ext s env pf pv s' e hrun
    rw [hdec] at hdec'
    obtain ⟨h1, h2, h3, h4⟩ :
        c' = c ∧ tax' = tax ∧ ut' = ut ∧ fl' = fl := by
      simpa using hdec'.symm
    rw [h1, h2, h3, h4] at hs'
    have hrec : TaxVerifier.getTaxRecord s' c =
        { totalTaxPaisa := tax, userType := ut, used44ada := fl,
          verifiedAt := env.blockTimestamp, verifiedBy := env.msgSender } := by
      rw [hs']
      exact TaxVerifier.lookupRecord_cons_self _ _ _
    refine ⟨?_, hrec⟩
    simp only [TaxVerifier.isVerified]
    rw [show TaxVerifier.lookupRecord s'.taxRecords c = TaxVerifier.getTaxRecord s' c from rfl,
      hrec]
    simpa using htime
  · intro s
    simp only [TaxVerifier.isVerified, TaxVerifier.getTaxRecord]
    cases h : (TaxVerifier.lookupRecord s.taxRecords c).verifiedAt with
    | zero => simp
    | succ n => simp

set_option maxRecDepth 10000 in
/-- Witness for C6: on the freshly deployed contract no commitment is
verified; after a successful call recording commitment 0 at block time
100, `isVerified` is true and `getTaxRecord` returns the stored
record. -/
theorem isVerified_iff_nonzero_timestamp_witness :
    TaxVerifier.isVerified (TaxVerifier.applyOps acceptAll (TaxVerifier.mkState 1 2) []) 0 = false ∧
    TaxVerifier.isVerified
      ({ verifier := 1, taxZkVkey := 2,
         taxRecords := [(0, { totalTaxPaisa := 0, userType := 0, used44ada := false,
                              verifiedAt := 100, verifiedBy := 7 })] } :
        TaxVerifier.State) 0 = true := by
  have h := isVerified_iff_nonzero_timestamp acceptAll 1 2 0 []
  refine ⟨h.1 (by intro op hmem; cases hmem), ?_⟩
  exact (h.2.1 (TaxVerifier.mkState 1 2)
    ({ verifier := 1, taxZkVkey := 2,
       taxRecords := [(0, { totalTaxPaisa := 0, userType := 0, used44ada := false,
                            verifiedAt := 100, verifiedBy := 7 })] })
    ({ ledgerCommitment := 0, totalTaxPaisa := 0, userType := 0,
       used44ada := false, verifiedBy := 7 })
    { blockTimestamp := 100, msgSender := 7 } [] pvZero 0 0 false
    (by decide) (by decide) (by decide)).1

set_option maxRecDepth 10000 in
/-- C3 counterexample: a 128-byte public-values blob whose user-type word
is 3 — outside `{0, 1, 2}` — decodes successfully, and a call over an
accepting verifier succeeds and stores user type 3 instead of failing. -/
theorem decoder_accepts_userType_three :
    TaxVerifier.abiDecodePublicValues pvUserType3 = some (0, 0, 3, false) ∧
    (TaxVerifier.verifyTaxProof acceptAll (TaxVerifier.mkState 1 2)
        { blockTimestamp := 100, msgSender := 7 } [] pvUserType3).isSome = true ∧
    (TaxVerifier.getTaxRecord
        (TaxVerifier.execVerifyTaxProof acceptAll (TaxVerifier.mkState 1 2)
          { blockTimestamp := 100, msgSender := 7 } [] pvUserType3 []).1 0).userType = 3 := by
  refine ⟨by decide, by decide, by decide⟩

/-- C3 (amended): the decoder enforces only the tuple layout — it rejects
(and the transaction then reverts without mutation) exactly the blobs
that are shorter than 128 bytes, have a user-type word outside the
`uint8` range, or a flag word other than 0 or 1; a decoded user-type code
is the full head word (so nothing is truncated) but is otherwise
unrestricted, any value up to 255 being accepted and stored. -/
theorem abiDecode_checks_layout_not_userType_set (bs : List Nat) :
    (TaxVerifier.abiDecodePublicValues bs = none ↔
      (bs.length < 128 ∨ 256 ≤ TaxVerifier.word32 bs 64 ∨ 2 ≤ TaxVerifier.word32 bs 96)) ∧
    (∀ c tax ut : Nat, ∀ fl : Bool,
      TaxVerifier.abiDecodePublicValues bs = some (c, tax, ut, fl) →
      ut = TaxVerifier.word32 bs 64 ∧ ut < 256) ∧
    (∀ ext : TaxVerifier.ExtVerifier, ∀ s : TaxVerifier.State, ∀ env : TaxVerifier.Env,
      ∀ pf : List Nat, ∀ log : List TaxVerifier.TaxEvent,
      TaxVerifier.abiDecodePublicValues bs = none →
      TaxVerifier.execVerifyTaxProof ext s env pf bs log = (s, log)) ∧
    (∀ ext : TaxVerifier.ExtVerifier, ∀ s s' : TaxVerifier.State,
      ∀ e : TaxVerifier.TaxEvent, ∀ env : TaxVerifier.Env, ∀ pf : List Nat,
      ∀ c tax ut : Nat, ∀ fl : Bool,
      TaxVerifier.abiDecodePublicValues bs = some (c, tax, ut, fl) →
      TaxVerifier.verifyTaxProof ext s env pf bs = some (s', e) →
      (TaxVerifier.getTaxRecord s' c).userType = ut) := by
  refine ⟨?_, ?_, ?_, ?_⟩
  · unfold TaxVerifier.abiDecodePublicValues
    split_ifs with hlen hv
    · simp only [reduceCtorEq, false_iff]
      omega
    · simp only [true_iff]
      omega
    · simp only [true_iff]
      omega
  · intro c tax ut fl h
    unfold TaxVerifier.abiDecodePublicValues at h
    split_ifs at h with hlen hv
    simp only [Option.some.injEq, Prod.mk.injEq] at h
    exact ⟨h.2.2.1.symm, h.2.2.1 ▸ hv.1⟩
  · intro ext s env pf log hnone
    have hrev : TaxVerifier.verifyTaxProof ext s env pf bs = none := by
      unfold TaxVerifier.verifyTaxProof
      rw [hnone]
      cases ext s.taxZkVkey bs pf <;> simp
    simp [TaxVerifier.execVerifyTaxProof, hrev]
  · intro ext s s' e env pf c tax ut fl hdec hrun
    obtain ⟨hext, c', tax', ut', fl', hdec', hs', he⟩ :=
      TaxVerifier.verifyTaxProof_eq_some ext s env pf bs s' e hrun
    rw [hdec] at hdec'
    obtain ⟨h1, h2, h3, h4⟩ :
        c' = c ∧ tax' = tax ∧ ut' = ut ∧ fl' = fl := by
      simpa using hdec'.symm
    rw [h1, h2, h3, h4] at hs'
    rw [hs']
    simp [TaxVerifier.getTaxRecord, TaxVerifier.lookupRecord]

set_option maxRecDepth 10000 in
/-- Witness for the amended C3: the user-type-3 blob decodes to the full
word 3 (< 256), and a 10-byte blob makes the whole call revert with no
state change. -/
theorem abiDecode_checks_layout_not_userType_set_witness :
    (3 : Nat) = TaxVerifier.word32 pvUserType3 64 ∧ (3 : Nat) < 256 ∧
    TaxVerifier.execVerifyTaxProof acceptAll (TaxVerifier.mkState 1 2)
        { blockTimestamp := 100, msgSender := 7 } [] (List.replicate 10 0) [] =
      (TaxVerifier.mkState 1 2, []) := by
  have h3 := abiDecode_checks_layout_not_userType_set pvUserType3
  have h10 := abiDecode_checks_layout_not_userType_set (List.replicate 10 0)
  have hdec := h3.2.1 0 0 3 false (by decide)
  exact ⟨hdec.1, hdec.2,
    h10.2.2.1 acceptAll (TaxVerifier.mkState 1 2)
      { blockTimestamp := 100, msgSender := 7 } [] [] (by decide)⟩

/-- The external-call semantics the deployed `TaxVerifier` sees through
its `verifier` immutable: `MockSP1Verifier.verifyProof`. -/
def mockExt : TaxVerifier.ExtVerifier := fun vkey pv pf =>
  MockSP1Verifier.verifyProof vkey pv pf

/-- C9: `MockSP1Verifier.verifyProof` accepts every triple, so on the
deployed demo contract (mock verifier, zero verification key) the
rejection branch of `verifyTaxProof` is unreachable — a call reverts
exactly when the public values fail to decode — and any caller, with any
proof bytes, records any well-formed public values. -/
theorem mock_verifier_makes_rejection_unreachable
    (addr : Nat) (env : TaxVerifier.Env) (pf pv : List Nat) :
    (∀ vkey : Nat, ∀ pv' pf' : List Nat, MockSP1Verifier.verifyProof vkey pv' pf' = true) ∧
    (∀ s : TaxVerifier.State,
      TaxVerifier.verifyTaxProof mockExt s env pf pv = none ↔
        TaxVerifier.abiDecodePublicValues pv = none) ∧
    (∀ c tax ut : Nat, ∀ fl : Bool,
      TaxVerifier.abiDecodePublicValues pv = some (c, tax, ut, fl) →
      ∃ s' : TaxVerifier.State, ∃ e : TaxVerifier.TaxEvent,
        TaxVerifier.verifyTaxProof mockExt (Deploy.demoTaxVerifier addr) env pf pv =
          some (s', e) ∧
        TaxVerifier.getTaxRecord s' c =
          { totalTaxPaisa := tax, userType := ut, used44ada := fl,
            verifiedAt := env.blockTimestamp, verifiedBy := env.msgSender }) := by
  refine ⟨fun _ _ _ => rfl, ?_, ?_⟩
  · intro s
    unfold TaxVerifier.verifyTaxProof
    cases hdec : TaxVerifier.abiDecodePublicValues pv with
    | none => simp [mockExt, MockSP1Verifier.verifyProof]
    | some q =>
        obtain ⟨c, tax, ut, fl⟩ := q
        simp [mockExt, MockSP1Verifier.verifyProof]
  · intro c tax ut fl hdec
    refine ⟨{ Deploy.demoTaxVerifier addr with
        taxRecords :=
          (c, { totalTaxPaisa := tax, userType := ut, used44ada := fl,
                verifiedAt := env.blockTimestamp, verifiedBy := env.msgSender }) ::
            (Deploy.demoTaxVerifier addr).taxRecords },
      { ledgerCommitment := c, totalTaxPaisa := tax, userType := ut,
        used44ada := fl, verifiedBy := env.msgSender }, ?_, ?_⟩
    · unfold TaxVerifier.verifyTaxProof
      rw [hdec]
      rfl
    · exact TaxVerifier.lookupRecord_cons_self _ _ _

set_option maxRecDepth 10000 in
/-- Witness for C9: on the deployed demo contract, caller 7 records the
all-zero public values with empty proof bytes. -/
theorem mock_verifier_makes_rejection_unreachable_witness :
    ∃ s' : TaxVerifier.State, ∃ e : TaxVerifier.TaxEvent,
      TaxVerifier.verifyTaxProof mockExt (Deploy.demoTaxVerifier 9)
          { blockTimestamp := 100, msgSender := 7 } [] pvZero = some (s', e) ∧
      TaxVerifier.getTaxRecord s' 0 =
        { totalTaxPaisa := 0, userType := 0, used44ada := false,
          verifiedAt := 100, verifiedBy := 7 } :=
  (mock_verifier_makes_rejection_unreachable 9
    { blockTimestamp := 100, msgSender := 7 } [] pvZero).2.2
    0 0 0 false (by decide)

namespace Engine

/-- Half of an integer paisa amount, rounded half-up, is `(p + 1) / 2`. -/
lemma mulRatRound_half (p : Nat) : mulRatRound p 1 2 = (p + 1) / 2 := by
  unfold mulRatRound
  omega

end Engine

/-- C7: when the user type is `individual` and the presumptive flag is
set, the computed taxable professional income is professional income
times one half rounded to the nearest paisa (that is, `(p + 1) / 2`); for
`huf` and `corporate` requests the flag changes no output of the
computation at all. -/
theorem presumptive_flag_only_affects_individuals
    (cfg : Engine.Config) (req : Engine.Request) :
    (∀ b : Engine.Breakdown, Engine.compute cfg req = .ok b →
      req.userType = .individual → req.use44ada = true →
      b.taxableProfessional = Engine.mulRatRound b.professionalIncome 1 2 ∧
      b.taxableProfessional = (b.professionalIncome + 1) / 2) ∧
    (req.userType ≠ .individual →
      Engine.compute cfg { req with use44ada := true } =
        Engine.compute cfg { req with use44ada := false }) := by
  constructor
  · intro b hb hind hflag
    unfold Engine.compute at hb
    cases h1 : Engine.sumRows req.prices req.usdInrRate
        (fun r => r.category = Engine.Category.income) req.ledger with
    | error e => rw [h1] at hb; simp at hb
    | ok p =>
      rw [h1] at hb
      cases h2 : Engine.sumRows req.prices req.usdInrRate
          (fun r => r.category = Engine.Category.gains && cfg.isVda r.asset) req.ledger with
      | error e => rw [h2] at hb; simp at hb
      | ok g =>
        rw [h2] at hb
        cases h3 : Engine.sumRows req.prices req.usdInrRate
            (fun r => r.category = Engine.Category.losses && cfg.isVda r.asset) req.ledger with
        | error e => rw [h3] at hb; simp at hb
        | ok l =>
          rw [h3] at hb
          simp only [Except.ok.injEq] at hb
          subst hb
          refine ⟨?_, ?_⟩
          · simp [hind, hflag]
          · simp [hind, hflag, Engine.mulRatRound_half]
  · intro hne
    unfold Engine.compute
    cases h1 : Engine.sumRows req.prices req.usdInrRate
        (fun r => r.category = Engine.Category.income) req.ledger with
    | error e => simp [h1]
    | ok p =>
      cases h2 : Engine.sumRows req.prices req.usdInrRate
          (fun r => r.category = Engine.Category.gains && cfg.isVda r.asset) req.ledger with
      | error e => simp [h1, h2]
      | ok g =>
        cases h3 : Engine.sumRows req.prices req.usdInrRate
            (fun r => r.category = Engine.Category.losses && cfg.isVda r.asset) req.ledger with
        | error e => simp [h1, h2, h3]
        | ok l => simp [h1, h2, h3, hne]

/-- A demo engine configuration for the witness: a 10% flat slab
schedule, zero rebate threshold, 30% VDA rate, 4% cess, everything
VDA-classified. -/
def cfgDemo : Engine.Config :=
  { slab := fun t => t / 10, rebateThreshold := 0,
    vdaRateNum := 3, vdaRateDen := 10, cessNum := 1, cessDen := 25,
    isVda := fun _ => true }

/-- A demo request for the witness: an individual with the presumptive
flag set and one income row of 1 ETH at 2500 USD, 83 USD-INR. -/
def reqDemo : Engine.Request :=
  { userType := .individual,
    ledger := [{ asset := "ETH", amount := { num := 1, exp := 0 },
                 category := .income }],
    prices := [("ETH", { num := 2500, exp := 0 })],
    usdInrRate := { num := 83, exp := 0 },
    use44ada := true }

/-- Witness for C7: on the demo request the engine halves the
20,750,000-paisa professional income to 10,375,000 paisa, and a `huf`
variant computes identically with the flag on and off. -/
theorem presumptive_flag_only_affects_individuals_witness :
    ((10375000 : Nat) = Engine.mulRatRound 20750000 1 2 ∧
      (10375000 : Nat) = (20750000 + 1) / 2) ∧
    Engine.compute cfgDemo { reqDemo with userType := .huf, use44ada := true } =
      Engine.compute cfgDemo { reqDemo with userType := .huf, use44ada := false } := by
  have h := presumptive_flag_only_affects_individuals cfgDemo reqDemo
  have hb := h.1
    { professionalIncome := 20750000, taxableProfessional := 10375000,
      vdaGains := 0, vdaLosses := 0, slabTax := 1037500, rebate := 0,
      vdaTax := 0, cess := 41500, total := 1079000 }
    rfl rfl rfl
  have h2 := presumptive_flag_only_affects_individuals cfgDemo
    { reqDemo with userType := .huf, use44ada := true }
  exact ⟨hb, h2.2 (by decide)⟩

namespace ProofJob

lemma JobStep_terminal_fixed (a b : JobStatus)
    (ha : a.isTerminal = true) (hstep : JobStep a b) : b = a := by
  cases hstep with
  | inl hpend => rw [hpend] at ha; simp [JobStatus.isTerminal] at ha
  | inr hb => exact hb

end ProofJob

/-- C8: once a job's status is terminal it never changes again — along
any trace respecting the job-registry step relation, every later poll
sees the same value — and the client polling loop returns the result of
the first `done` response, throws the message of the first `error`
response, and keeps polling across `pending` responses. -/
theorem job_terminal_and_polling_behaviour :
    (∀ f : Nat → ProofJob.JobStatus,
      (∀ n, ProofJob.JobStep (f n) (f (n + 1))) →
      ∀ t d, (f t).isTerminal = true → f (t + d) = f t) ∧
    (∀ k : Nat, ∀ r : ProofJob.ProofResult, ∀ tail : List ProofJob.StatusResponse,
      ProofJob.pollLoop
          (List.replicate k (ProofJob.renderStatus .pending) ++
            ProofJob.renderStatus (.done r) :: tail) = .ok r) ∧
    (∀ k : Nat, ∀ msg : String, ∀ tail : List ProofJob.StatusResponse,
      ProofJob.pollLoop
          (List.replicate k (ProofJob.renderStatus .pending) ++
            ProofJob.renderStatus (.error msg) :: tail) = .failed msg) ∧
    (∀ s : ProofJob.StatusResponse, ∀ rest : List ProofJob.StatusResponse,
      s.statusTag = .pending → ProofJob.pollLoop (s :: rest) = ProofJob.pollLoop rest) := by
  refine ⟨?_, ?_, ?_, ?_⟩
  · intro f hf t d hterm
    induction d with
    | zero => rfl
    | succ d ih =>
        have hstep := hf (t + d)
        rw [ih] at hstep
        exact ProofJob.JobStep_terminal_fixed (f t) (f (t + d + 1)) hterm hstep
  · intro k r tail
    induction k with
    | zero => simp [ProofJob.pollLoop, ProofJob.renderStatus]
    | succ k ih =>
        rw [List.replicate_succ, List.cons_append]
        rw [show ProofJob.pollLoop
            (ProofJob.renderStatus .pending ::
              (List.replicate k (ProofJob.renderStatus .pending) ++
                ProofJob.renderStatus (.done r) :: tail)) =
          ProofJob.pollLoop
            (List.replicate k (ProofJob.renderStatus .pending) ++
              ProofJob.renderStatus (.done r) :: tail) from rfl]
        exact ih
  · intro k msg tail
    induction k with
    | zero => simp [ProofJob.pollLoop, ProofJob.renderStatus, Option.getD]
    | succ k ih =>
        rw [List.replicate_succ, List.cons_append]
        rw [show ProofJob.pollLoop
            (ProofJob.renderStatus .pending ::
              (List.replicate k (ProofJob.renderStatus .pending) ++
                ProofJob.renderStatus (.error msg) :: tail)) =
          ProofJob.pollLoop
            (List.replicate k (ProofJob.renderStatus .pending) ++
              ProofJob.renderStatus (.error msg) :: tail) from rfl]
        exact ih
  · intro s rest htag
    obtain ⟨tag, res, err⟩ := s
    cases tag with
    | pending => rfl
    | done => simp at htag
    | error => simp at htag

/-- A concrete proof result for the C8 witness. -/
def resultDemo : ProofJob.ProofResult :=
  { ledgerCommitment := "0xc", totalTaxPaisa := "100", proof := "0xp",
    publicValues := "0xv", vkHash := "0xk" }

/-- Witness for C8: a trace that errors at time 1 stays at that error at
time 3; two pending polls followed by a `done` response yield the result;
an error response yields its message; a pending response is skipped. -/
theorem job_terminal_and_polling_behaviour_witness :
    (fun n => if n = 0 then ProofJob.JobStatus.pending
              else ProofJob.JobStatus.error "boom") (1 + 2) =
      ProofJob.JobStatus.error "boom" ∧
    ProofJob.pollLoop
        (List.replicate 2 (ProofJob.renderStatus .pending) ++
          ProofJob.renderStatus (.done resultDemo) :: []) = .ok resultDemo ∧
    ProofJob.pollLoop
        (List.replicate 0 (ProofJob.renderStatus .pending) ++
          ProofJob.renderStatus (.error "boom") :: []) = .failed "boom" ∧
    ProofJob.pollLoop (ProofJob.renderStatus .pending ::
        [ProofJob.renderStatus (.done resultDemo)]) =
      ProofJob.pollLoop [ProofJob.renderStatus (.done resultDemo)] := by
  have h := job_terminal_and_polling_behaviour
  refine ⟨?_, h.2.1 2 resultDemo [], h.2.2.1 0 "boom" [], h.2.2.2 _ _ rfl⟩
  have hterm := h.1
    (fun n => if n = 0 then ProofJob.JobStatus.pending
              else ProofJob.JobStatus.error "boom")
    (fun n => by
      cases n with
      | zero => exact Or.inl rfl
      | succ m => exact Or.inr rfl)
    1 2 rfl
  exact hterm

/-- C10: `importSession` returns `false` and leaves the session untouched
whenever the JSON did not parse, the parsed value has no numeric
`version`, or `wallets`/`walletGroups` are not arrays; otherwise it
returns `true` and replaces the whole session with the parsed value with
`updatedAt` refreshed — and whenever it returns `false`, the session is
unchanged (failure is atomic). -/
theorem importSession_atomic_replace_or_reject
    (parsed : Option SessionImport.JSValue) (now : Int)
    (ctx : SessionImport.SessionCtx) :
    ((SessionImport.importSession parsed now ctx).1 = false →
      (SessionImport.importSession parsed now ctx).2 = ctx) ∧
    (parsed = none → (SessionImport.importSession parsed now ctx).1 = false) ∧
    (∀ v : SessionImport.JSValue, parsed = some v →
      (¬ (SessionImport.getField v "version").any SessionImport.isNumber = true ∨
       ¬ SessionImport.isArray (SessionImport.getField v "wallets") = true ∨
       ¬ SessionImport.isArray (SessionImport.getField v "walletGroups") = true) →
      SessionImport.importSession parsed now ctx = (false, ctx)) ∧
    (∀ v : SessionImport.JSValue, parsed = some v →
      (SessionImport.getField v "version").any SessionImport.isNumber = true →
      SessionImport.isArray (SessionImport.getField v "wallets") = true →
      SessionImport.isArray (SessionImport.getField v "walletGroups") = true →
      SessionImport.importSession parsed now ctx =
        (true, { session := SessionImport.setField v "updatedAt" (.num now) })) := by
  refine ⟨?_, ?_, ?_, ?_⟩
  · intro hfalse
    cases parsed with
    | none => rfl
    | some v =>
        by_cases h1 : (SessionImport.getField v "version").any SessionImport.isNumber = true
        · by_cases h2 : SessionImport.isArray (SessionImport.getField v "wallets") = true ∧
              SessionImport.isArray (SessionImport.getField v "walletGroups") = true
          · simp [SessionImport.importSession, h1, h2] at hfalse
          · simp [SessionImport.importSession, h1, h2]
        · simp [SessionImport.importSession, h1]
  · intro h
    subst h
    rfl
  · intro v hv hbad
    subst hv
    rcases hbad with hb | hb | hb
    · simp [SessionImport.importSession, hb]
    · simp [SessionImport.importSession, hb]
    · simp [SessionImport.importSession, hb]
  · intro v hv hver hw hg
    subst hv
    simp [SessionImport.importSession, hver, hw, hg]

/-- A minimal well-formed session JSON value for the C10 witness. -/
def sessionDemo : SessionImport.JSValue :=
  .obj [("version", .num 1), ("wallets", .arr []), ("walletGroups", .arr [])]

/-- Witness for C10: the demo value is imported wholesale with
`updatedAt := 5`; a parse failure reports `false`; a value without a
numeric `version` is rejected with the session unchanged. -/
theorem importSession_atomic_replace_or_reject_witness :
    SessionImport.importSession (some sessionDemo) 5 { session := .obj [] } =
      (true, { session := SessionImport.setField sessionDemo "updatedAt" (.num 5) }) ∧
    (SessionImport.importSession none 5 { session := .obj [] }).1 = false ∧
    SessionImport.importSession (some (.obj [])) 5 { session := .obj [] } =
      (false, { session := .obj [] }) := by
  have h1 := importSession_atomic_replace_or_reject (some sessionDemo) 5
    { session := .obj [] }
  have h2 := importSession_atomic_replace_or_reject none 5 { session := .obj [] }
  have h3 := importSession_atomic_replace_or_reject (some (.obj [])) 5
    { session := .obj [] }
  refine ⟨h1.2.2.2 sessionDemo rfl rfl rfl rfl, h2.2.1 rfl, ?_⟩
  exact h3.2.2.1 (.obj []) rfl (Or.inl (by decide))
